import Mathlib

/-
Shallow embedding of the two simulation environments of the repository:
`EvacuationEnv` (src/environment/custom.env.py) and
`HypertensionMonitoringEnv` (src/environment/rendering.py).

Modelling conventions:
- numpy float32 values are modelled as rationals; decimal literals of the
  source become the corresponding exact rational literals;
- `np.random.uniform(lo, hi)` draws are passed to `step` as explicit inputs,
  so every theorem quantifies over the random outcomes;
- a Python method that mutates `self` is modelled as a function returning the
  new object value; a method that can raise is modelled with `Except`:
  the returned object value carries the mutations performed before the raise;
- `self.state` is `Option`-valued: `none` models the `self.state = None`
  assignment performed by `__init__` before it calls `reset()`.
-/

/-- Numpy clip of `x` into the inclusive interval `lo, hi`
(numpy computes `min (max x lo) hi`). -/
def npClip (x lo hi : ℚ) : ℚ := min (max x lo) hi

/-- Failure modes of a `step` call.  The first two are the failures the
Python source can actually raise: `noneUnpack` models the `TypeError` of
unpacking a `None` state, `unboundLocalReward` models the
`UnboundLocalError` on the local variable `reward` when no action branch
assigned it.  Modelled from the spec: `invalidAction` and `invalidState`
are the error names of the spec's error taxonomy (section 7); the source
code never raises either of them. -/
inductive Err where
  | noneUnpack
  | unboundLocalReward
  | invalidAction
  | invalidState
  deriving DecidableEq

/-- State vector of the evacuation variant:
`[group_proximity, water_level, time_elapsed, safe_zone_occupancy]`. -/
structure EvacState where
  group_proximity : ℚ
  water_level : ℚ
  time_elapsed : ℚ
  safe_zone_occupancy : ℚ
  deriving DecidableEq

/-- The `(observation, reward, done)` part of the tuple returned by
`EvacuationEnv.step` (the `info` component is always the empty dict). -/
structure EvacResult where
  obs : EvacState
  reward : ℚ
  done : Bool
  deriving DecidableEq

/-- Object state of an `EvacuationEnv` instance: `self.state` and
`self.time_step` (`self.max_time_steps` is the constant 50). -/
structure EvacuationEnv where
  state : Option EvacState
  time_step : ℕ
  deriving DecidableEq

/-- Initial state vector assigned by `EvacuationEnv.reset`. -/
def evacInitState : EvacState := ⟨0.8, 0.5, 0.0, 0.0⟩

/-- `EvacuationEnv.reset`: sets the literal initial state, zeroes the step
counter and returns the state. -/
def EvacuationEnv.reset (_env : EvacuationEnv) : EvacState × EvacuationEnv :=
  (evacInitState, { state := some evacInitState, time_step := 0 })

/-- `EvacuationEnv.__init__`: sets `self.state = None`, `self.time_step = 0`,
then calls `self.reset()`. -/
def evacNew : EvacuationEnv := (EvacuationEnv.reset { state := none, time_step := 0 }).2

/-- Body of `EvacuationEnv.step` once `self.state` has been unpacked:
given the unpacked state, the current `self.time_step`, the action and the
uniform draw `u` used by actions 0 and 6, it returns the new state vector,
the reward and the done flag, following the source line by line.
The quadruple `b` holds the local variables
`(group_proximity, water_level, safe_zone_occupancy, reward)` after the
action `if`/`elif` chain; an action code matching no branch leaves all of
them unchanged (`reward` was initialised to 0). -/
def evacStepCore (s : EvacState) (ts0 : ℕ) (action : ℤ) (u : ℚ) : EvacState × ℚ × Bool :=
  let gp := s.group_proximity
  let wl := s.water_level
  let occ := s.safe_zone_occupancy
  let b : ℚ × ℚ × ℚ × ℚ :=
    if action = 0 then (gp, npClip (wl + u) 0 1, occ, 0)
    else if action = 1 then
      if gp > 0.6 then (npClip (gp - 0.3) 0 1, wl, npClip (occ + 0.3) 0 1, 15)
      else (gp, wl, occ, -10)
    else if action = 2 then
      if gp > 0.6 then (npClip (gp - 0.3) 0 1, wl, npClip (occ + 0.3) 0 1, 15)
      else (gp, wl, occ, -10)
    else if action = 3 then
      if gp > 0.6 then (npClip (gp - 0.3) 0 1, wl, npClip (occ + 0.3) 0 1, 15)
      else (gp, wl, occ, -10)
    else if action = 4 then
      if wl > 0.7 then (gp, wl, occ, 5) else (gp, wl, occ, -15)
    else if action = 5 then
      if wl > 0.6 ∧ gp > 0.5 then (gp, wl, occ, 15) else (gp, wl, occ, -10)
    else if action = 6 then (gp, npClip (wl + u) 0 1, occ, 0)
    else if action = 7 then (gp, wl, occ, -5)
    else (gp, wl, occ, 0)
  let ts := ts0 + 1
  let te : ℚ := (ts : ℚ) / 50
  let wl2 := if b.1 > 0.5 then npClip (b.2.1 + 0.02) 0 1 else b.2.1
  let s2 : EvacState := ⟨b.1, wl2, te, b.2.2.1⟩
  (s2, b.2.2.2, decide (ts ≥ 50) || decide (b.2.2.1 ≥ 1))

/-- `EvacuationEnv.step`: unpacks `self.state` (raising on `None`), runs the
step body, stores the new state and counter, and returns the result tuple. -/
def EvacuationEnv.step (env : EvacuationEnv) (action : ℤ) (u : ℚ) :
    EvacuationEnv × Except Err EvacResult :=
  match env.state with
  | none => (env, Except.error Err.noneUnpack)
  | some s =>
    let c := evacStepCore s env.time_step action u
    ({ state := some c.1, time_step := env.time_step + 1 },
      Except.ok ⟨c.1, c.2.1, c.2.2⟩)

/-- State vector of the hypertension variant:
`[sbp, dbp, hr, stress, phys_act, last_med, time_since, sleep]`. -/
structure HyperState where
  sbp : ℚ
  dbp : ℚ
  hr : ℚ
  stress : ℚ
  phys_act : ℚ
  last_med : ℚ
  time_since : ℚ
  sleep : ℚ
  deriving DecidableEq

/-- The four independent uniform draws of one hypertension step:
`sbp += U(-2,2)`, `dbp += U(-1,1)`, `hr += U(-1,1)`, `stress += U(-0.5,0.5)`. -/
structure HyperDeltas where
  dsbp : ℚ
  ddbp : ℚ
  dhr : ℚ
  dstress : ℚ
  deriving DecidableEq

/-- Zero draws for all four perturbations (a possible random outcome). -/
def zeroDeltas : HyperDeltas := ⟨0, 0, 0, 0⟩

/-- Values of the locals `sbp`, `dbp`, `stress`, `reward` after the action
`if`/`elif` chain of `HypertensionMonitoringEnv.step` (source lines 47-74).
`reward = none` models the Python local `reward` being left unassigned when
the action matches no branch. -/
structure HyperEffect where
  sbp : ℚ
  dbp : ℚ
  stress : ℚ
  reward : Option ℚ
  deriving DecidableEq

/-- The action `if`/`elif` chain of `HypertensionMonitoringEnv.step`,
applied to the (already perturbed) local variable values. -/
def hyperActionEffect (sbp dbp stress : ℚ) (action : ℤ) : HyperEffect :=
  if action = 0 then ⟨sbp, dbp, stress, some 0⟩
  else if action = 1 then ⟨sbp - 3, dbp - 2, stress, some 2⟩
  else if action = 2 then ⟨sbp - 5, dbp - 3, stress, some 4⟩
  else if action = 3 then ⟨sbp - 8, dbp - 5, stress, some (-2)⟩
  else if action = 4 then ⟨sbp, dbp, stress - 1, some 2⟩
  else if action = 5 then ⟨sbp + 2, dbp + 1, stress, some 1⟩
  else if action = 6 then
    ⟨sbp, dbp, stress, some (if sbp > 160 ∨ dbp > 100 ∨ sbp < 80 ∨ dbp < 50 then 10 else -5)⟩
  else ⟨sbp, dbp, stress, none⟩

/-- The `(observation, reward, done)` part of the tuple returned by
`HypertensionMonitoringEnv.step`. -/
structure HyperResult where
  obs : HyperState
  reward : ℚ
  done : Bool
  deriving DecidableEq

/-- Object state of a `HypertensionMonitoringEnv` instance. -/
structure HypertensionMonitoringEnv where
  state : Option HyperState
  time_step : ℕ
  deriving DecidableEq

/-- Initial state vector assigned by `HypertensionMonitoringEnv.reset`. -/
def hyperInitState : HyperState := ⟨120, 80, 70, 5, 0, 0, 0, 1⟩

/-- `HypertensionMonitoringEnv.reset`. -/
def HypertensionMonitoringEnv.reset (_env : HypertensionMonitoringEnv) :
    HyperState × HypertensionMonitoringEnv :=
  (hyperInitState, { state := some hyperInitState, time_step := 0 })

/-- `HypertensionMonitoringEnv.__init__`: sets `self.state = None`,
`self.time_step = 0`, then calls `self.reset()`. -/
def hyperNew : HypertensionMonitoringEnv :=
  (HypertensionMonitoringEnv.reset { state := none, time_step := 0 }).2

/-- Reward-shaping bonus of `HypertensionMonitoringEnv.step`
(source lines 94-100), as a function of the post-clip stored state:
+10 in the optimal blood-pressure band, otherwise -10 in the critical band,
otherwise 0. -/
def shapingBonus (s : HyperState) : ℚ :=
  if 90 ≤ s.sbp ∧ s.sbp ≤ 120 ∧ 60 ≤ s.dbp ∧ s.dbp ≤ 80 then 10
  else if s.sbp > 130 ∨ s.dbp > 90 ∨ s.sbp < 80 ∨ s.dbp < 50 then -10
  else 0

/-- Body of `HypertensionMonitoringEnv.step` once `self.state` has been
unpacked: returns the new `(self.state, self.time_step)` pair together with
either the `(reward, done)` pair or the error raised.  Following the source:
the perturbed locals feed the action chain; `time_since` and `last_med`
bookkeeping and the clipped state assignment to `self.state` happen before
`reward` is ever read, so when `reward` was never assigned the raise occurs
with the new state already stored; whether `self.time_step` was already
incremented at that point depends on which shaping branch first reads
`reward` (the final `return` reads it in any case). -/
def hyperStepCore (s : HyperState) (ts0 : ℕ) (action : ℤ) (d : HyperDeltas) :
    (HyperState × ℕ) × Except Err (ℚ × Bool) :=
  let sbp := s.sbp + d.dsbp
  let dbp := s.dbp + d.ddbp
  let hr2 := s.hr + d.dhr
  let stress := npClip (s.stress + d.dstress) 0 10
  let e := hyperActionEffect sbp dbp stress action
  let tsd := s.time_since + 1
  let lm : ℚ × ℚ :=
    if action = 1 ∨ action = 2 ∨ action = 3 then ((action : ℚ), 0) else (s.last_med, tsd)
  let s2 : HyperState := ⟨npClip e.sbp 50 200, npClip e.dbp 30 150, npClip hr2 40 180,
    e.stress, npClip s.phys_act 0 2, lm.1, npClip lm.2 0 120, s.sleep⟩
  match e.reward with
  | none =>
    if 90 ≤ s2.sbp ∧ s2.sbp ≤ 120 ∧ 60 ≤ s2.dbp ∧ s2.dbp ≤ 80 then
      ((s2, ts0), Except.error Err.unboundLocalReward)
    else if s2.sbp > 130 ∨ s2.dbp > 90 ∨ s2.sbp < 80 ∨ s2.dbp < 50 then
      ((s2, ts0), Except.error Err.unboundLocalReward)
    else ((s2, ts0 + 1), Except.error Err.unboundLocalReward)
  | some rw0 =>
    let rwd := if 90 ≤ s2.sbp ∧ s2.sbp ≤ 120 ∧ 60 ≤ s2.dbp ∧ s2.dbp ≤ 80 then rw0 + 10
      else if s2.sbp > 130 ∨ s2.dbp > 90 ∨ s2.sbp < 80 ∨ s2.dbp < 50 then rw0 - 10
      else rw0
    ((s2, ts0 + 1), Except.ok (rwd, decide (ts0 + 1 ≥ 100)))

/-- `HypertensionMonitoringEnv.step`: unpacks `self.state` (raising on
`None`), runs the step body and packages the result tuple. -/
def HypertensionMonitoringEnv.step (env : HypertensionMonitoringEnv) (action : ℤ)
    (d : HyperDeltas) : HypertensionMonitoringEnv × Except Err HyperResult :=
  match env.state with
  | none => (env, Except.error Err.noneUnpack)
  | some s =>
    let c := hyperStepCore s env.time_step action d
    ({ state := some c.1.1, time_step := c.1.2 },
      c.2.map (fun rd => ⟨c.1.1, rd.1, rd.2⟩))

/-- Repeated stepping of a hypertension environment with a list of
`(action, draws)` pairs, keeping only the object state (as the interactive
driver in the source does). -/
def hyperRun (env : HypertensionMonitoringEnv) (steps : List (ℤ × HyperDeltas)) :
    HypertensionMonitoringEnv :=
  steps.foldl (fun e p => (HypertensionMonitoringEnv.step e p.1 p.2).1) env

/-- The reward component of a step outcome, `none` when the step raised. -/
def rewardView (x : Except Err EvacResult) : Option ℚ :=
  (Except.toOption x).map (fun r => r.reward)

/-- C8: `reset()` always returns exactly the literal initial vector of its
variant (Evacuation `[0.8, 0.5, 0.0, 0.0]`, Hypertension
`[120, 80, 70, 5, 0, 0, 0, 1]`) and sets the step counter to 0 regardless of
prior history; two consecutive `reset()` calls with no intervening `step()`
return the same literal vector both times and leave the counter at 0. -/
theorem C8_reset_literal (ee : EvacuationEnv) (he : HypertensionMonitoringEnv) :
    EvacuationEnv.reset ee =
      (⟨0.8, 0.5, 0.0, 0.0⟩, { state := some ⟨0.8, 0.5, 0.0, 0.0⟩, time_step := 0 }) ∧
    HypertensionMonitoringEnv.reset he =
      (⟨120, 80, 70, 5, 0, 0, 0, 1⟩,
        { state := some ⟨120, 80, 70, 5, 0, 0, 0, 1⟩, time_step := 0 }) ∧
    EvacuationEnv.reset (EvacuationEnv.reset ee).2 = EvacuationEnv.reset ee ∧
    HypertensionMonitoringEnv.reset (HypertensionMonitoringEnv.reset he).2 =
      HypertensionMonitoringEnv.reset he :=
  ⟨rfl, rfl, rfl, rfl⟩

/-- C1 (code bug): the bound invariant fails on the hypertension variant.
From reset, six consecutive steps with the valid action 4 (recommend rest)
and zero perturbation draws leave the stored `stress` at `-1`, outside its
declared bound `[0, 10]`: the final state assignment of the source clips
every other mutated field but stores `stress` unclipped after the action's
`stress -= 1`. -/
theorem C1_stress_bound_violation :
    (hyperRun hyperNew (List.replicate 6 (4, zeroDeltas))).state =
      some ⟨120, 80, 70, -1, 0, 0, 6, 1⟩ ∧ ¬ ((0 : ℚ) ≤ -1) := by
  constructor
  · norm_num [hyperRun, hyperNew, HypertensionMonitoringEnv.reset, List.replicate,
      HypertensionMonitoringEnv.step, hyperStepCore, hyperActionEffect, hyperInitState,
      zeroDeltas, npClip, List.foldl, Except.map]
  · norm_num

/-- C2 counterexample: the claim that `step` fails with `InvalidAction` on an
out-of-range action is false.  On Evacuation, action `8` and action `-1`
both return normally (reward 0, the passive dynamics and time progression
still applied); on Hypertension, action `-1` raises the uninitialised-local
error on `reward`, not an `InvalidAction` error. -/
theorem C2_counterexample :
    (EvacuationEnv.step evacNew 8 0).2 = Except.ok ⟨⟨0.8, 0.52, 0.02, 0⟩, 0, false⟩ ∧
    (EvacuationEnv.step evacNew (-1) 0).2 = Except.ok ⟨⟨0.8, 0.52, 0.02, 0⟩, 0, false⟩ ∧
    (HypertensionMonitoringEnv.step hyperNew (-1) zeroDeltas).2 =
      Except.error Err.unboundLocalReward := by
  refine ⟨?_, ?_, ?_⟩
  · norm_num [evacNew, EvacuationEnv.reset, EvacuationEnv.step, evacStepCore,
      evacInitState, npClip]
  · norm_num [evacNew, EvacuationEnv.reset, EvacuationEnv.step, evacStepCore,
      evacInitState, npClip]
  · norm_num [hyperNew, HypertensionMonitoringEnv.reset, HypertensionMonitoringEnv.step,
      hyperStepCore, hyperActionEffect, hyperInitState, zeroDeltas, npClip, Except.map]

/-- C2 corrected: an action code outside the valid range is never rejected
with an `InvalidAction` error.  On Evacuation the step silently defaults:
no action branch fires, the returned reward is 0 and the step otherwise
completes normally.  On Hypertension the step raises the
uninitialised-local error on `reward` instead. -/
theorem C2_out_of_range_default :
    (∀ (env : EvacuationEnv) (s : EvacState) (a : ℤ) (u : ℚ), env.state = some s →
      a < 0 ∨ 8 ≤ a →
      (EvacuationEnv.step env a u).2 =
        Except.ok ⟨(evacStepCore s env.time_step a u).1, 0,
          (evacStepCore s env.time_step a u).2.2⟩) ∧
    (∀ (env : HypertensionMonitoringEnv) (s : HyperState) (a : ℤ) (d : HyperDeltas),
      env.state = some s → a < 0 ∨ 7 ≤ a →
      (HypertensionMonitoringEnv.step env a d).2 = Except.error Err.unboundLocalReward) := by
  constructor
  · intro env s a u hs ha
    have h0 : a ≠ 0 := by omega
    have h1 : a ≠ 1 := by omega
    have h2 : a ≠ 2 := by omega
    have h3 : a ≠ 3 := by omega
    have h4 : a ≠ 4 := by omega
    have h5 : a ≠ 5 := by omega
    have h6 : a ≠ 6 := by omega
    have h7 : a ≠ 7 := by omega
    simp only [EvacuationEnv.step, hs]
    simp [evacStepCore, h0, h1, h2, h3, h4, h5, h6, h7]
  · intro env s a d hs ha
    have h0 : a ≠ 0 := by omega
    have h1 : a ≠ 1 := by omega
    have h2 : a ≠ 2 := by omega
    have h3 : a ≠ 3 := by omega
    have h4 : a ≠ 4 := by omega
    have h5 : a ≠ 5 := by omega
    have h6 : a ≠ 6 := by omega
    simp only [HypertensionMonitoringEnv.step, hs]
    simp only [hyperStepCore, hyperActionEffect, h0, h1, h2, h3, h4, h5, h6, if_false,
      if_neg, ite_false]
    split_ifs <;> rfl

/-- C2 witness: the corrected statement exercised at concrete inputs. -/
theorem C2_out_of_range_default_witness :
    (EvacuationEnv.step evacNew 8 0).2 =
      Except.ok ⟨(evacStepCore evacInitState evacNew.time_step 8 0).1, 0,
        (evacStepCore evacInitState evacNew.time_step 8 0).2.2⟩ ∧
    (HypertensionMonitoringEnv.step hyperNew (-1) zeroDeltas).2 =
      Except.error Err.unboundLocalReward :=
  ⟨C2_out_of_range_default.1 evacNew evacInitState 8 0 rfl (by norm_num),
   C2_out_of_range_default.2 hyperNew hyperInitState (-1) zeroDeltas rfl (by norm_num)⟩

/-- C3 counterexample: the no-partial-failure claim is false.  On the failing
call `step(7)` from the freshly reset hypertension environment (zero draws),
the step raises the uninitialised-local error on `reward`, yet the stored
state vector has already been replaced (its `time_since` field moved from 0
to 1): an intermediate state is observable after the error. -/
theorem C3_counterexample :
    (HypertensionMonitoringEnv.step hyperNew 7 zeroDeltas).2 =
      Except.error Err.unboundLocalReward ∧
    (HypertensionMonitoringEnv.step hyperNew 7 zeroDeltas).1.state ≠ hyperNew.state := by
  constructor
  · norm_num [hyperNew, HypertensionMonitoringEnv.reset, HypertensionMonitoringEnv.step,
      hyperStepCore, hyperActionEffect, hyperInitState, zeroDeltas, npClip, Except.map]
  · norm_num [hyperNew, HypertensionMonitoringEnv.reset, HypertensionMonitoringEnv.step,
      hyperStepCore, hyperActionEffect, hyperInitState, zeroDeltas, npClip, Except.map,
      HyperState.mk.injEq]

/-- C3 corrected: a step is not atomic on failure.  On the only error path a
constructed environment has (a hypertension step with an out-of-range
action), the error is raised only after `self.state` has been replaced by
the perturbed, clipped and bookkept vector, so the partially applied state
is observable; nothing is rolled back. -/
theorem C3_error_partial_mutation :
    ∀ (env : HypertensionMonitoringEnv) (s : HyperState) (a : ℤ) (d : HyperDeltas),
      env.state = some s → a < 0 ∨ 7 ≤ a →
      (HypertensionMonitoringEnv.step env a d).2 = Except.error Err.unboundLocalReward ∧
      (HypertensionMonitoringEnv.step env a d).1.state =
        some ⟨npClip (s.sbp + d.dsbp) 50 200, npClip (s.dbp + d.ddbp) 30 150,
          npClip (s.hr + d.dhr) 40 180, npClip (s.stress + d.dstress) 0 10,
          npClip s.phys_act 0 2, s.last_med, npClip (s.time_since + 1) 0 120, s.sleep⟩ := by
  intro env s a d hs ha
  have h0 : a ≠ 0 := by omega
  have h1 : a ≠ 1 := by omega
  have h2 : a ≠ 2 := by omega
  have h3 : a ≠ 3 := by omega
  have h4 : a ≠ 4 := by omega
  have h5 : a ≠ 5 := by omega
  have h6 : a ≠ 6 := by omega
  simp only [HypertensionMonitoringEnv.step, hs]
  simp only [hyperStepCore, hyperActionEffect, h0, h1, h2, h3, h4, h5, h6, false_or,
    or_self, if_false, ite_false]
  constructor
  · split_ifs <;> rfl
  · split_ifs <;> rfl

/-- C3 witness: the corrected statement exercised at a concrete input. -/
theorem C3_error_partial_mutation_witness :
    (HypertensionMonitoringEnv.step hyperNew 7 zeroDeltas).2 =
      Except.error Err.unboundLocalReward ∧
    (HypertensionMonitoringEnv.step hyperNew 7 zeroDeltas).1.state =
      some ⟨npClip (hyperInitState.sbp + zeroDeltas.dsbp) 50 200,
        npClip (hyperInitState.dbp + zeroDeltas.ddbp) 30 150,
        npClip (hyperInitState.hr + zeroDeltas.dhr) 40 180,
        npClip (hyperInitState.stress + zeroDeltas.dstress) 0 10,
        npClip hyperInitState.phys_act 0 2, hyperInitState.last_med,
        npClip (hyperInitState.time_since + 1) 0 120, hyperInitState.sleep⟩ :=
  C3_error_partial_mutation hyperNew hyperInitState 7 zeroDeltas rfl (by norm_num)

/-- C9 counterexample: the claim that `step` before any `reset` fails with an
`InvalidState` error is false: on an environment whose state is still the
`None` assigned at the start of `__init__`, `step` fails by unpacking the
`None` state (a `TypeError`), which is not the spec's `InvalidState`. -/
theorem C9_counterexample :
    (EvacuationEnv.step { state := none, time_step := 0 } 0 0).2 =
      Except.error Err.noneUnpack ∧
    (HypertensionMonitoringEnv.step { state := none, time_step := 0 } 0 zeroDeltas).2 =
      Except.error Err.noneUnpack ∧
    Err.noneUnpack ≠ Err.invalidState :=
  ⟨rfl, rfl, by simp⟩

/-- C9 corrected: calling `step` with no state set (the situation before any
`reset`) fails by unpacking the `None` state — a `TypeError`, not a dedicated
`InvalidState` error — and performs no transition at all: the object is
returned unchanged.  Moreover `__init__` itself ends with a `reset()`, so a
constructed environment always starts with the initial state set. -/
theorem C9_pre_reset_behaviour :
    ∀ (ee : EvacuationEnv) (he : HypertensionMonitoringEnv) (a1 a2 : ℤ) (u : ℚ)
      (d : HyperDeltas), ee.state = none → he.state = none →
      EvacuationEnv.step ee a1 u = (ee, Except.error Err.noneUnpack) ∧
      HypertensionMonitoringEnv.step he a2 d = (he, Except.error Err.noneUnpack) ∧
      evacNew.state = some evacInitState ∧ hyperNew.state = some hyperInitState := by
  intro ee he a1 a2 u d h1 h2
  refine ⟨?_, ?_, rfl, rfl⟩
  · simp only [EvacuationEnv.step, h1]
  · simp only [HypertensionMonitoringEnv.step, h2]

/-- C9 witness: the corrected statement exercised at concrete inputs. -/
theorem C9_pre_reset_behaviour_witness :
    EvacuationEnv.step { state := none, time_step := 0 } 0 0 =
      ({ state := none, time_step := 0 }, Except.error Err.noneUnpack) ∧
    HypertensionMonitoringEnv.step { state := none, time_step := 0 } 0 zeroDeltas =
      ({ state := none, time_step := 0 }, Except.error Err.noneUnpack) ∧
    evacNew.state = some evacInitState ∧ hyperNew.state = some hyperInitState :=
  C9_pre_reset_behaviour { state := none, time_step := 0 } { state := none, time_step := 0 }
    0 0 0 zeroDeltas rfl rfl

/-- C10: on the evacuation variant the returned reward is a deterministic
function of the pre-step object state and the action: two step calls on the
same environment with the same action return the same reward whatever the
uniform draws were (randomness only perturbs the water level under actions
0 and 6, whose rewards are the constant 0, and every reward threshold is
evaluated on pre-step values). -/
theorem C10_reward_deterministic (env : EvacuationEnv) (a : ℤ) (u v : ℚ) :
    rewardView (EvacuationEnv.step env a u).2 = rewardView (EvacuationEnv.step env a v).2 := by
  obtain ⟨st, ts⟩ := env
  cases st with
  | none => rfl
  | some s =>
    simp only [EvacuationEnv.step, evacStepCore, rewardView, Except.toOption, Option.map]
    split_ifs <;> rfl

/-- Helper: an in-range hypertension action always assigns the local
`reward`, so the step body returns a normal result whose done flag is the
horizon test on the incremented counter. -/
theorem hyperCore_ok (s : HyperState) (ts0 : ℕ) (a : ℤ) (d : HyperDeltas)
    (h0 : 0 ≤ a) (h1 : a < 7) :
    ∃ q, (hyperStepCore s ts0 a d).2 = Except.ok (q, decide (ts0 + 1 ≥ 100)) := by
  interval_cases a <;> exact ⟨_, rfl⟩

/-- C5: the done flag of a step is true exactly when, after the counter
update, Evacuation has `time_step ≥ 50` or `safe_zone_occupancy ≥ 1.0`
(whatever the action, even an invalid one), and Hypertension has
`time_step ≥ 100` (for every valid action); done is never true earlier. -/
theorem C5_termination_policy :
    (∀ (env : EvacuationEnv) (s : EvacState) (a : ℤ) (u : ℚ), env.state = some s →
      ∃ r, (EvacuationEnv.step env a u).2 = Except.ok r ∧
        (r.done = true ↔ (50 ≤ env.time_step + 1 ∨ (1 : ℚ) ≤ r.obs.safe_zone_occupancy))) ∧
    (∀ (env : HypertensionMonitoringEnv) (s : HyperState) (a : ℤ) (d : HyperDeltas),
      env.state = some s → 0 ≤ a → a < 7 →
      ∃ r, (HypertensionMonitoringEnv.step env a d).2 = Except.ok r ∧
        (r.done = true ↔ 100 ≤ env.time_step + 1)) := by
  constructor
  · intro env s a u hs
    simp only [EvacuationEnv.step, hs]
    refine ⟨_, rfl, ?_⟩
    simp only [evacStepCore]
    simp [Bool.or_eq_true, decide_eq_true_iff, ge_iff_le]
  · intro env s a d hs h0 h1
    obtain ⟨q, hq⟩ := hyperCore_ok s env.time_step a d h0 h1
    simp only [HypertensionMonitoringEnv.step, hs, hq, Except.map]
    refine ⟨_, rfl, ?_⟩
    simp [decide_eq_true_iff, ge_iff_le]

/-- C5 witness: the termination statement exercised at concrete inputs. -/
theorem C5_termination_policy_witness :
    (∃ r, (EvacuationEnv.step evacNew 0 0).2 = Except.ok r ∧
      (r.done = true ↔ (50 ≤ evacNew.time_step + 1 ∨ (1 : ℚ) ≤ r.obs.safe_zone_occupancy))) ∧
    (∃ r, (HypertensionMonitoringEnv.step hyperNew 0 zeroDeltas).2 = Except.ok r ∧
      (r.done = true ↔ 100 ≤ hyperNew.time_step + 1)) :=
  ⟨C5_termination_policy.1 evacNew evacInitState 0 0 rfl,
   C5_termination_policy.2 hyperNew hyperInitState 0 zeroDeltas rfl (by norm_num)
     (by norm_num)⟩

/-- C6: with pre-step `sbp = 170`, `dbp = 110`, action 6 (emergency call)
earns base reward +10 for every outcome of the perturbations (`sbp` draw in
`[-2,2]`, `dbp` draw in `[-1,1]`); with pre-step `sbp = 120`, `dbp = 80` it
earns base reward -5 for every such outcome. -/
theorem C6_emergency_base_reward :
    ∀ d1 d2 st0 : ℚ, -2 ≤ d1 → d1 ≤ 2 → -1 ≤ d2 → d2 ≤ 1 →
      (hyperActionEffect (170 + d1) (110 + d2) st0 6).reward = some 10 ∧
      (hyperActionEffect (120 + d1) (80 + d2) st0 6).reward = some (-5) := by
  intro d1 d2 st0 ha hb hc hd
  constructor
  · have hA : 170 + d1 > 160 ∨ 110 + d2 > 100 ∨ 170 + d1 < 80 ∨ 110 + d2 < 50 :=
      Or.inl (by linarith)
    norm_num [hyperActionEffect, hA]
  · have hB : ¬ (120 + d1 > 160 ∨ 80 + d2 > 100 ∨ 120 + d1 < 80 ∨ 80 + d2 < 50) := by
      push_neg
      exact ⟨by linarith, by linarith, by linarith, by linarith⟩
    norm_num [hyperActionEffect, hB]

/-- C6 witness: the reward-table statement exercised at the zero draws. -/
theorem C6_emergency_base_reward_witness :
    (hyperActionEffect (170 + 0) (110 + 0) 5 6).reward = some 10 ∧
    (hyperActionEffect (120 + 0) (80 + 0) 5 6).reward = some (-5) :=
  C6_emergency_base_reward 0 0 5 (by norm_num) (by norm_num) (by norm_num) (by norm_num)

/-- C4 counterexample: the claim that action thresholds are evaluated on
pre-perturbation values is false.  With pre-step `sbp = 161` (critical:
`161 > 160`) and the admissible `sbp` draw `-2`, the emergency-call branch
sees `159` and pays the base reward -5, not the +10 a pre-perturbation
check would give. -/
theorem C4_counterexample :
    ¬ ∀ (s : HyperState) (d : HyperDeltas), -2 ≤ d.dsbp → d.dsbp ≤ 2 →
        (hyperActionEffect (s.sbp + d.dsbp) (s.dbp + d.ddbp)
            (npClip (s.stress + d.dstress) 0 10) 6).reward =
          some (if s.sbp > 160 ∨ s.dbp > 100 ∨ s.sbp < 80 ∨ s.dbp < 50
            then (10 : ℚ) else -5) := by
  intro h
  have hc := h ⟨161, 80, 70, 5, 0, 0, 0, 1⟩ ⟨-2, 0, 0, 0⟩ (by norm_num) (by norm_num)
  norm_num [hyperActionEffect, npClip] at hc

/-- C4 corrected: every threshold check of the action effect, in particular
action 6's critical-condition check, is evaluated on the post-perturbation
values of this step: the reward returned by an action-6 step is the base
reward decided on `sbp + dsbp` and `dbp + ddbp`, plus the band-shaping
bonus computed on the stored post-clip state. -/
theorem C4_post_perturbation_check :
    ∀ (env : HypertensionMonitoringEnv) (s : HyperState) (d : HyperDeltas) (r : HyperResult),
      env.state = some s →
      (HypertensionMonitoringEnv.step env 6 d).2 = Except.ok r →
      r.reward =
        (if s.sbp + d.dsbp > 160 ∨ s.dbp + d.ddbp > 100 ∨
            s.sbp + d.dsbp < 80 ∨ s.dbp + d.ddbp < 50 then (10 : ℚ) else -5)
          + shapingBonus r.obs := by
  intro env s d r hs hr
  norm_num [HypertensionMonitoringEnv.step, hs, hyperStepCore, hyperActionEffect,
    Except.map] at hr
  subst hr
  simp only [shapingBonus]
  split_ifs <;> ring

/-- C4 witness: the corrected statement exercised at the reset state with
zero draws (base reward -5, optimal-band bonus +10, total 5). -/
theorem C4_post_perturbation_check_witness :
    (⟨⟨120, 80, 70, 5, 0, 0, 1, 1⟩, 5, false⟩ : HyperResult).reward =
      (if hyperInitState.sbp + zeroDeltas.dsbp > 160 ∨
          hyperInitState.dbp + zeroDeltas.ddbp > 100 ∨
          hyperInitState.sbp + zeroDeltas.dsbp < 80 ∨
          hyperInitState.dbp + zeroDeltas.ddbp < 50 then (10 : ℚ) else -5)
        + shapingBonus (⟨⟨120, 80, 70, 5, 0, 0, 1, 1⟩, 5, false⟩ : HyperResult).obs :=
  C4_post_perturbation_check hyperNew hyperInitState zeroDeltas
    ⟨⟨120, 80, 70, 5, 0, 0, 1, 1⟩, 5, false⟩ rfl
    (by norm_num [hyperNew, HypertensionMonitoringEnv.reset, HypertensionMonitoringEnv.step,
      hyperStepCore, hyperActionEffect, hyperInitState, zeroDeltas, npClip, Except.map])

/-- Helper: a direct-to-zone action taken while the group proximity exceeds
0.6 adds 0.3 (clipped into the unit interval) to the safe-zone occupancy of
the stored state. -/
theorem evacDirect_occ (env : EvacuationEnv) (s : EvacState) (a : ℤ) (u : ℚ)
    (s2 : EvacState) (hs : env.state = some s) (ha : a = 1 ∨ a = 2 ∨ a = 3)
    (hgp : s.group_proximity > 0.6)
    (h2 : (EvacuationEnv.step env a u).1.state = some s2) :
    s2.safe_zone_occupancy = npClip (s.safe_zone_occupancy + 0.3) 0 1 := by
  rcases ha with rfl | rfl | rfl <;>
    (simp [EvacuationEnv.step, hs, evacStepCore, hgp] at h2; subst h2; rfl)

/-- C7: three consecutive direct-to-zone actions (codes 1, 2 or 3), each
taken from a state whose group proximity exceeds 0.6, drive the safe-zone
occupancy from 0.0 to at least 0.9; a further direct-to-zone action taken
from a state whose proximity is at most 0.6 returns base reward -10 and
leaves the occupancy unchanged. -/
theorem C7_three_directs :
    (∀ (env0 : EvacuationEnv) (s0 s1 s2 s3 : EvacState) (a1 a2 a3 : ℤ) (u1 u2 u3 : ℚ),
      env0.state = some s0 →
      a1 = 1 ∨ a1 = 2 ∨ a1 = 3 → a2 = 1 ∨ a2 = 2 ∨ a2 = 3 → a3 = 1 ∨ a3 = 2 ∨ a3 = 3 →
      s0.safe_zone_occupancy = 0 →
      (EvacuationEnv.step env0 a1 u1).1.state = some s1 →
      (EvacuationEnv.step (EvacuationEnv.step env0 a1 u1).1 a2 u2).1.state = some s2 →
      (EvacuationEnv.step (EvacuationEnv.step (EvacuationEnv.step env0 a1 u1).1 a2 u2).1
        a3 u3).1.state = some s3 →
      s0.group_proximity > 0.6 → s1.group_proximity > 0.6 → s2.group_proximity > 0.6 →
      (0.9 : ℚ) ≤ s3.safe_zone_occupancy) ∧
    (∀ (env : EvacuationEnv) (s : EvacState) (a : ℤ) (u : ℚ) (r : EvacResult),
      env.state = some s → a = 1 ∨ a = 2 ∨ a = 3 → s.group_proximity ≤ 0.6 →
      (EvacuationEnv.step env a u).2 = Except.ok r →
      r.reward = -10 ∧ r.obs.safe_zone_occupancy = s.safe_zone_occupancy) := by
  constructor
  · intro env0 s0 s1 s2 s3 a1 a2 a3 u1 u2 u3 h0 ha1 ha2 ha3 hocc he1 he2 he3 hg0 hg1 hg2
    have o1 := evacDirect_occ env0 s0 a1 u1 s1 h0 ha1 hg0 he1
    have o2 := evacDirect_occ _ s1 a2 u2 s2 he1 ha2 hg1 he2
    have o3 := evacDirect_occ _ s2 a3 u3 s3 he2 ha3 hg2 he3
    rw [hocc] at o1
    norm_num [npClip] at o1
    rw [o1] at o2
    norm_num [npClip] at o2
    rw [o2] at o3
    norm_num [npClip] at o3
    rw [o3]
    norm_num
  · intro env s a u r hs ha hgp hr
    have hgp2 : ¬ (s.group_proximity > 0.6) := not_lt.mpr hgp
    rcases ha with rfl | rfl | rfl <;>
      (simp [EvacuationEnv.step, hs, evacStepCore, hgp2] at hr; subst hr;
        exact ⟨rfl, rfl⟩)

/-- C7 witness: the statement exercised on a concrete three-step run with
proximities 1.3, 1.0, 0.7 and zero draws, followed by a fourth direct
action from proximity 0.4. -/
theorem C7_three_directs_witness :
    (0.9 : ℚ) ≤ (⟨0.4, 0.54, 0.06, 0.9⟩ : EvacState).safe_zone_occupancy ∧
    ((⟨⟨0.4, 0.54, 0.08, 0.9⟩, -10, false⟩ : EvacResult).reward = -10 ∧
      (⟨⟨0.4, 0.54, 0.08, 0.9⟩, -10, false⟩ : EvacResult).obs.safe_zone_occupancy =
        (⟨0.4, 0.54, 0.06, 0.9⟩ : EvacState).safe_zone_occupancy) :=
  ⟨C7_three_directs.1 ⟨some ⟨1.3, 0.5, 0, 0⟩, 0⟩ ⟨1.3, 0.5, 0, 0⟩ ⟨1, 0.52, 0.02, 0.3⟩
      ⟨0.7, 0.54, 0.04, 0.6⟩ ⟨0.4, 0.54, 0.06, 0.9⟩ 1 1 1 0 0 0 rfl
      (Or.inl rfl) (Or.inl rfl) (Or.inl rfl) rfl
      (by norm_num [EvacuationEnv.step, evacStepCore, npClip])
      (by norm_num [EvacuationEnv.step, evacStepCore, npClip])
      (by norm_num [EvacuationEnv.step, evacStepCore, npClip])
      (by norm_num) (by norm_num) (by norm_num),
   C7_three_directs.2 ⟨some ⟨0.4, 0.54, 0.06, 0.9⟩, 3⟩ ⟨0.4, 0.54, 0.06, 0.9⟩ 1 0
      ⟨⟨0.4, 0.54, 0.08, 0.9⟩, -10, false⟩ rfl (Or.inl rfl) (by norm_num)
      (by norm_num [EvacuationEnv.step, evacStepCore, npClip])⟩
